import Mathlib

/-!
Verification of the SPED parser core (`src/sped_parser`): a shallow embedding
of the record-table pipeline from `base.py` (tokenizer fallback, end-marker
trimming, parent-id assignment, error wrapping) and of the business
extractors in `contribuicoes.py` and `fiscal.py`, together with theorems
about the behaviour of these functions.

Modelling conventions:
* a pandas cell of a `dtype=str` frame is `Option String`; `none` is NaN;
* a record is the list of its cells, indexed by column position; a column
  beyond the end of the list reads as NaN, matching the padding performed
  by `pd.read_csv` with explicit `names`;
* Python `Decimal` values produced by `_to_decimal` are modelled by
  `PyDecimal` (a rational number, or the special values NaN/Infinity that
  `Decimal(...)` accepts);
* exceptions are values of the inductive type `Exc`.
-/

/-- A cell of the record table. `none` models a pandas NaN. -/
abbrev Cell := Option String

/-- One decoded record (line) of a SPED file: its cells by column position. -/
abbrev Rec := List Cell

/-- The ordered record table of one file. -/
abbrev Table := List Rec

/-- Read column `i` of a record; out-of-range columns are NaN. -/
def getCell (r : Rec) (i : Nat) : Cell :=
  r.getD i none

/-- Python `str(value)` on a cell: NaN prints as the string "nan". -/
def pyStr : Cell → String
  | none => "nan"
  | some s => s

/-- Python truthiness of a cell: NaN (a float) is truthy, the empty string
is falsy, every other string is truthy. -/
def pyTruthy : Cell → Bool
  | none => true
  | some s => !(s.isEmpty)

/-- Python `a or b` on two cells. -/
def pyOr (a b : Cell) : Cell :=
  if pyTruthy a then a else b

/-- `pd.notna` on a cell. -/
def pdNotna : Cell → Bool
  | none => false
  | some _ => true

/-- Python `str.zfill`: left-pad with zeros to the requested width, keeping
a leading sign character in front of the padding. -/
def zfill (width : Nat) (s : String) : String :=
  if width ≤ s.length then s
  else
    let pad := String.mk (List.replicate (width - s.length) '0')
    match s.data with
    | c :: rest =>
        if c = '+' ∨ c = '-' then String.mk (c :: (pad.data ++ rest))
        else pad ++ s
    | [] => pad

/-- Does the string consist of exactly `n` decimal digits?  This is the
regular-expression check `\d` repeated `n` times between anchors, as used by
the pydantic field patterns in `schemas.py`. -/
def digitsN (n : Nat) (s : String) : Bool :=
  s.length = n && s.data.all Char.isDigit

/-- The pattern of two upper-case letters for state codes in `schemas.py`. -/
def ufPattern (s : String) : Bool :=
  s.length = 2 && s.data.all (fun c => c.isUpper && c.isAlpha)

/-- The exceptions that matter to the pipeline, both the library-defined
kinds from `exceptions.py` and the plain Python exceptions its code can
raise. -/
inductive Exc
  | spedParseError
  | spedEncodingError
  | spedEmptyFileError
  | spedValidationError
  | unicodeDecodeError
  | valueError
  | typeError
  | attributeError
  | pydanticValidationError
  | emptyDataError
  deriving DecidableEq, Repr

/-- A record after `_assign_parent_ids`: the row id taken from the frame
index, the propagated parent id (`id_pai`), and the original cells. -/
structure RRec where
  id : Nat
  id_pai : Option Nat
  fields : Rec
  deriving DecidableEq, Repr

/-- Record-type string of a record as the trimmer sees it: column `"0"`
after `astype(str)`, so a NaN reads as "nan". -/
def col0Str (r : Rec) : String :=
  pyStr (getCell r 0)

/-- `SPEDParser._trim_at_end_marker`: truncate the table at the first record
whose column-0 value (as a string) equals the end marker, keeping that
record; a table without the marker is returned unchanged. -/
def trim_at_end_marker (marker : String) : Table → Table
  | [] => []
  | r :: rs =>
      if col0Str r = marker then [r]
      else r :: trim_at_end_marker marker rs

/-- The `df["0"].isin(self.parent_codes)` test of `_assign_parent_ids`:
a NaN cell is never in the list of parent codes. -/
def isParentRec (parentCodes : List String) (r : Rec) : Bool :=
  match getCell r 0 with
  | none => false
  | some c => parentCodes.contains c

/-- Worker for `_assign_parent_ids`: walk the table in order carrying the
row index and the most recent parent row id; a parent-type record replaces
the carried id with its own row id, and every record stores the carried id
(the forward fill of `id_pai`). -/
def assignAux (parentCodes : List String) : Nat → Option Nat → Table → List RRec
  | _, _, [] => []
  | i, cur, r :: rs =>
      let cur2 := if isParentRec parentCodes r then some i else cur
      ⟨i, cur2, r⟩ :: assignAux parentCodes (i + 1) cur2 rs

/-- `SPEDParser._assign_parent_ids`: row ids are the positional frame index,
parent records receive their own id in `id_pai`, and `id_pai` is
forward-filled; rows before the first parent keep a null parent id. -/
def assign_parent_ids (parentCodes : List String) (t : Table) : List RRec :=
  assignAux parentCodes 0 none t

/-- Specification-side view of the forward fill: the id of the last
parent-type record of the walked prefix, starting from row index `i` with
accumulator `cur`. -/
def parentFold (parentCodes : List String) : Nat → Option Nat → Table → Option Nat
  | _, cur, [] => cur
  | i, cur, r :: rs =>
      parentFold parentCodes (i + 1)
        (if isParentRec parentCodes r then some i else cur) rs

/-- The exception-mapping of `SPEDParser.parse` (base.py lines 116-121):
a `UnicodeDecodeError` becomes `SPEDEncodingError`; the three library error
kinds pass through; every other exception is wrapped as `SPEDParseError`. -/
def parseExcMap (e : Exc) : Exc :=
  match e with
  | .unicodeDecodeError => .spedEncodingError
  | .spedParseError => .spedParseError
  | .spedEncodingError => .spedEncodingError
  | .spedEmptyFileError => .spedEmptyFileError
  | _ => .spedParseError

/-- A value of Python's `Decimal` type as produced by this code base:
either a finite rational number or one of the special values the `Decimal`
constructor accepts from a string. -/
inductive PyDecimal
  | num (q : ℚ)
  | nan
  | inf (neg : Bool)
  deriving DecidableEq, Repr

/-- Numeric value of a list of decimal digits. -/
def digitsVal (cs : List Char) : Nat :=
  cs.foldl (fun a c => a * 10 + (c.toNat - 48)) 0

/-- Parse the exponent part of a decimal numeric string (after `e`). -/
def parseExpPart (cs : List Char) : Option Int :=
  match cs with
  | [] => none
  | '+' :: ds =>
      if ds ≠ [] ∧ ds.all Char.isDigit then some (digitsVal ds) else none
  | '-' :: ds =>
      if ds ≠ [] ∧ ds.all Char.isDigit then some (-(digitsVal ds : Int)) else none
  | ds =>
      if ds.all Char.isDigit then some (digitsVal ds) else none

/-- Parse an unsigned decimal mantissa: digits with at most one point and at
least one digit overall. -/
def parseMantissa (cs : List Char) : Option ℚ :=
  match cs.splitOn '.' with
  | [intPart] =>
      if intPart ≠ [] ∧ intPart.all Char.isDigit then some (digitsVal intPart : ℚ)
      else none
  | [intPart, fracPart] =>
      if (intPart ≠ [] ∨ fracPart ≠ []) ∧ intPart.all Char.isDigit
          ∧ fracPart.all Char.isDigit then
        some ((digitsVal (intPart ++ fracPart) : ℚ) / (10 : ℚ) ^ fracPart.length)
      else none
  | _ => none

/-- Is the (lower-cased, sign-stripped) body one of the NaN spellings the
`Decimal` constructor accepts (`nan`/`snan`, optional digit payload)? -/
def isNanBody (cs : List Char) : Bool :=
  (cs.take 3 = "nan".data && (cs.drop 3).all Char.isDigit) ||
  (cs.take 4 = "snan".data && (cs.drop 4).all Char.isDigit)

/-- Python `Decimal(s)` on a string: strip surrounding whitespace, drop
underscores, take an optional sign, then either a special value
(`inf`/`infinity`/`nan`/`snan`, case-insensitive) or a mantissa with an
optional exponent.  `none` models the `InvalidOperation` exception. -/
def pyDecimalParse (s : String) : Option PyDecimal :=
  let stripped :=
    ((s.data.dropWhile Char.isWhitespace).reverse.dropWhile Char.isWhitespace).reverse
  let cleaned := stripped.filter (fun c => c ≠ '_')
  let signBody : Bool × List Char :=
    match cleaned with
    | '+' :: r => (false, r)
    | '-' :: r => (true, r)
    | r => (false, r)
  let neg := signBody.1
  let lower := signBody.2.map Char.toLower
  if lower = "inf".data ∨ lower = "infinity".data then some (.inf neg)
  else if isNanBody lower then some .nan
  else
    match lower.splitOn 'e' with
    | [m] => (parseMantissa m).map (fun q => .num (if neg then -q else q))
    | [m, ex] => do
        let q ← parseMantissa m
        let e ← parseExpPart ex
        pure (.num ((if neg then -q else q) * (10 : ℚ) ^ e))
    | _ => none

/-- The `str.replace(",", ".")` step of `_to_decimal`: with a
single-character pattern it maps every comma to a period. -/
def replaceCommaDot (s : String) : String :=
  String.mk (s.data.map (fun c => if c = ',' then '.' else c))

/-- `_to_decimal` (identical in `contribuicoes.py`, `fiscal.py`, `ecd.py`):
NaN normalizes to `Decimal("0")`; otherwise the text has its comma replaced
by a period and is fed to `Decimal`, with any failure yielding
`Decimal("0")`. -/
def to_decimal (c : Cell) : PyDecimal :=
  match c with
  | none => .num 0
  | some s => (pyDecimalParse (replaceCommaDot s)).getD (.num 0)

/-- The optional-field idiom of the extractors,
`self._to_decimal(row.get(F)) if pd.notna(row.get(F)) else None`:
an absent (NaN) cell becomes Python `None`, a present cell is normalized
with `_to_decimal`. -/
def optDecimalField (c : Cell) : Option PyDecimal :=
  if pdNotna c then some (to_decimal c) else none

/-- The optional-string idiom of the extractors,
`str(row.get(F)) if pd.notna(row.get(F)) else None`. -/
def optStrField (c : Cell) : Option String :=
  if pdNotna c then some (pyStr c) else none

/-- A Python `date`. -/
structure PyDate where
  year : Nat
  month : Nat
  day : Nat
  deriving DecidableEq, Repr

/-- The documented fallback date of `_parse_date`. -/
def sentinelDate : PyDate := ⟨2024, 1, 1⟩

/-- Gregorian leap-year test. -/
def isLeap (y : Nat) : Bool :=
  (y % 4 = 0 && y % 100 ≠ 0) || y % 400 = 0

/-- Number of days of a month. -/
def daysInMonth (m y : Nat) : Nat :=
  if m = 2 then (if isLeap y then 29 else 28)
  else if m = 4 ∨ m = 6 ∨ m = 9 ∨ m = 11 then 30
  else 31

/-- `datetime.strptime(s, "%d%m%Y")` on an 8-character slice: two day
digits, two month digits, four year digits, and the resulting date must be
a valid calendar date.  `none` models `ValueError`. -/
def strptimeDDMMYYYY (s : String) : Option PyDate :=
  let cs := s.data
  if cs.length = 8 ∧ cs.all Char.isDigit then
    let d := digitsVal (cs.take 2)
    let m := digitsVal ((cs.drop 2).take 2)
    let y := digitsVal (cs.drop 4)
    if 1 ≤ m ∧ m ≤ 12 ∧ 1 ≤ d ∧ d ≤ daysInMonth m y ∧ 1 ≤ y then some ⟨y, m, d⟩
    else none
  else none

/-- `_parse_date` applied to a string argument: empty or shorter than 8
characters yields the sentinel date, otherwise the first 8 characters are
parsed as day-month-year with the sentinel as fallback. -/
def parse_date (s : String) : PyDate :=
  if s.isEmpty ∨ s.length < 8 then sentinelDate
  else (strptimeDDMMYYYY (s.take 8)).getD sentinelDate

/-- A Python value passed to an `Optional[str]` pydantic field by this code
base: `None`, a NaN float (from a pandas cell), or a string. -/
inductive PyObj
  | noneV
  | nanV
  | strV (s : String)
  deriving DecidableEq, Repr

/-- View a pandas cell as the Python object it holds. -/
def cellObj : Cell → PyObj
  | none => .nanV
  | some s => .strV s

/-- `SPEDHeader` of `schemas.py` (dates as `PyDate`). -/
structure SPEDHeader where
  file_type : String
  cnpj : String
  company_name : String
  period_start : PyDate
  period_end : PyDate
  uf : String
  deriving DecidableEq, Repr

/-- `SPEDItem` of `schemas.py`, with `Decimal` as `PyDecimal` and `date` as
`PyDate`. -/
structure SPEDItem where
  ncm : String
  cfop : String
  item_code : String
  description : Option String
  total_value : PyDecimal
  quantity : Option PyDecimal
  unit : Option String
  icms_value : PyDecimal
  pis_value : PyDecimal
  cofins_value : PyDecimal
  ipi_value : Option PyDecimal
  aliq_pis : Option PyDecimal
  aliq_cofins : Option PyDecimal
  aliq_icms : Option PyDecimal
  vl_bc_pis : Option PyDecimal
  vl_bc_cofins : Option PyDecimal
  vl_bc_icms : Option PyDecimal
  cst_pis : Option String
  cst_cofins : Option String
  cst_icms : Option String
  nat_bc_cred : Option String
  document_number : Option String
  document_key : Option String
  document_date : Option PyDate
  operation : String
  participant_uf : Option String
  deriving DecidableEq, Repr

/-- `SPEDExpense` of `schemas.py`. -/
structure SPEDExpense where
  account_code : String
  account_description : Option String
  reference_code : Option String
  value : PyDecimal
  is_debit : Bool
  deriving DecidableEq, Repr

/-- `SPEDData` of `schemas.py` (the raw-DataFrame attachment is not part of
the typed result and is omitted). -/
structure SPEDData where
  file_type : String
  header : SPEDHeader
  sales_items : List SPEDItem
  purchase_items : List SPEDItem
  expenses : List SPEDExpense
  deriving DecidableEq, Repr

/-- The arguments the extractors pass to the `SPEDItem` constructor, with
the schema defaults of `schemas.py` for the fields a call site omits. -/
structure ItemArgs where
  ncm : String
  cfop : String
  item_code : String
  description : PyObj := .noneV
  total_value : PyDecimal
  quantity : Option PyDecimal := none
  unit : Option String := none
  icms_value : PyDecimal := .num 0
  pis_value : PyDecimal := .num 0
  cofins_value : PyDecimal := .num 0
  ipi_value : Option PyDecimal := none
  aliq_pis : Option PyDecimal := none
  aliq_cofins : Option PyDecimal := none
  aliq_icms : Option PyDecimal := none
  vl_bc_pis : Option PyDecimal := none
  vl_bc_cofins : Option PyDecimal := none
  vl_bc_icms : Option PyDecimal := none
  cst_pis : Option String := none
  cst_cofins : Option String := none
  cst_icms : Option String := none
  nat_bc_cred : Option String := none
  document_number : Option String := none
  document_key : Option String := none
  document_date : Option PyDate := none
  operation : String
  participant_uf : Option String := none

/-- Pydantic validation of a `SPEDItem` construction as exercised by the
extractors: the `ncm` pattern is eight digits, the `cfop` pattern four
digits, `operation` must be one of the two literals, a NaN passed to the
`Optional[str]` field `description` is rejected (it is a float, not a
string), and a present `participant_uf` must match the two-upper-case-
letters pattern.  A failed validation raises, which the per-row
`try/except` of the extractors turns into a skipped row; this is the
`none` result. -/
def pydanticItem (a : ItemArgs) : Option SPEDItem :=
  if digitsN 8 a.ncm && digitsN 4 a.cfop
      && (a.description matches .noneV | .strV _)
      && (a.operation == "entrada" || a.operation == "saida")
      && (match a.participant_uf with
          | none => true
          | some s => ufPattern s) then
    some ⟨a.ncm, a.cfop, a.item_code,
      (match a.description with | .strV s => some s | _ => none),
      a.total_value, a.quantity, a.unit, a.icms_value, a.pis_value,
      a.cofins_value, a.ipi_value, a.aliq_pis, a.aliq_cofins, a.aliq_icms,
      a.vl_bc_pis, a.vl_bc_cofins, a.vl_bc_icms, a.cst_pis, a.cst_cofins,
      a.cst_icms, a.nat_bc_cred, a.document_number, a.document_key,
      a.document_date, a.operation, a.participant_uf⟩
  else none

/-- The document-date idiom of the extractors,
`self._parse_date(str(row.get(F))) if pd.notna(row.get(F)) else None`. -/
def optDateField (c : Cell) : Option PyDate :=
  if pdNotna c then some (parse_date (pyStr c)) else none

/-- `drop_duplicates(subset=key)` with pandas' default keep-first policy;
NaN keys are duplicates of each other. -/
def dropDuplicatesAux {α : Type} (key : α → Cell) (seen : List Cell) :
    List α → List α
  | [] => []
  | r :: rs =>
      if seen.contains (key r) then dropDuplicatesAux key seen rs
      else r :: dropDuplicatesAux key (key r :: seen) rs

/-- Keep the first row for each key value. -/
def drop_duplicates_first {α : Type} (key : α → Cell) (l : List α) : List α :=
  dropDuplicatesAux key [] l

/-- The `set_index("id")` plus `Series.map` idiom of the extractors: find
the (unique) row of the parent frame whose row id equals the child's
`id_pai`; a null `id_pai`, or one that does not appear in the parent frame,
maps to NaN. -/
def c100Lookup (parents : List RRec) (pid : Option Nat) : Option RRec :=
  match pid with
  | none => none
  | some p => parents.find? (fun rr => rr.id == p)

/-- Column `i` of an optional parent row; no row means NaN. -/
def parentCell (pr : Option RRec) (i : Nat) : Cell :=
  match pr with
  | some rr => getCell rr.fields i
  | none => none

/-- Column `i` of an optional lookup row; no row means NaN. -/
def prodCell (pr : Option Rec) (i : Nat) : Cell :=
  match pr with
  | some r => getCell r i
  | none => none

/-- A left `merge` against a key-deduplicated lookup frame: the enrichment
row for the given key, if any.  NaN keys never match (pandas merge
semantics), and the lookup frame has at most one row per key, so the merge
never multiplies rows. -/
def mergeLookup (lookup : List Rec) (keyIdx : Nat) (key : Cell) : Option Rec :=
  match key with
  | none => none
  | some s => lookup.find? (fun p => getCell p keyIdx == some s)

/-- `EFDContribuicoesParser._extract_header`: take the first record with
type code `0000` in column 0 (a `ValueError` if there is none), parse the
period dates (`_parse_date` raises `TypeError` on a NaN argument), left-pad
the taxpayer id (`.zfill` raises `AttributeError` on a NaN), then build the
`SPEDHeader`, whose pydantic validation requires a 14-digit `cnpj`, string
`company_name`, and a two-upper-case-letter `uf`.  Column positions follow
`EFDContribuicoesLayout.RECORD_0000`. -/
def extract_header_contrib (rt : List RRec) : Except Exc SPEDHeader :=
  match rt.find? (fun rr => getCell rr.fields 0 == some "0000") with
  | none => .error .valueError
  | some rr =>
      let f := rr.fields
      match getCell f 5, getCell f 6 with -- DT_INI, DT_FIN
      | some dtIni, some dtFin =>
          (match getCell f 8 with -- CNPJ
          | none => .error .attributeError
          | some cnpjRaw =>
              let cnpj := zfill 14 cnpjRaw
              match getCell f 7, getCell f 9 with -- NOME, UF
              | some nome, some uf =>
                  if digitsN 14 cnpj && ufPattern uf then
                    .ok ⟨"contribuicoes", cnpj, nome, parse_date dtIni,
                      parse_date dtFin, uf⟩
                  else .error .pydanticValidationError
              | _, _ => .error .pydanticValidationError)
      | _, _ => .error .typeError

/-- `_build_product_lookup` (identical in `contribuicoes.py` and
`fiscal.py`): the `0200` records, deduplicated on `COD_ITEM` (column 1)
keeping the first row; `DESCR_ITEM` is column 2 and `COD_NCM` column 7. -/
def build_product_lookup (rt : List RRec) : List Rec :=
  drop_duplicates_first (fun r => getCell r 1)
    ((rt.filter (fun rr => getCell rr.fields 0 == some "0200")).map RRec.fields)

/-- The `ind_oper` column computed by `_extract_c170_sales`: the `IND_OPER`
cell (column 1) of the `C100` row mapped through the child's `id_pai`. -/
def indOperOf (c100 : List RRec) (rr : RRec) : Cell :=
  parentCell (c100Lookup c100 rr.id_pai) 1

/-- Row conversion of `_extract_c170_sales` for one surviving `C170` record:
look up the governing `C100` row for document data, left-join the product
lookup on `COD_ITEM`, zero-pad the classification codes, normalize values,
and construct the `SPEDItem`; a construction that raises is skipped
(`none`).  Column positions follow `EFDContribuicoesLayout.RECORD_C170` and
`RECORD_C100`. -/
def convertC170Sale (c100 : List RRec) (products : List Rec) (rr : RRec) :
    Option SPEDItem :=
  let f := rr.fields
  let parent := c100Lookup c100 rr.id_pai
  let numDoc := parentCell parent 7 -- NUM_DOC
  let chvNfe := parentCell parent 8 -- CHV_NFE
  let dtDoc := parentCell parent 9 -- DT_DOC
  let codItem := getCell f 2 -- COD_ITEM
  let prod := mergeLookup products 1 codItem
  let ncm0 := zfill 8 (pyStr (prodCell prod 7)) -- COD_NCM
  let ncm := if ncm0.isEmpty || ncm0 == "00000000" then "00000000" else ncm0
  pydanticItem
    { ncm := ncm
      cfop := zfill 4 (pyStr (getCell f 10)) -- CFOP
      item_code := pyStr codItem
      description := cellObj (pyOr (prodCell prod 2) (getCell f 3)) -- DESCR_ITEM or DESCR_COMPL
      total_value := to_decimal (getCell f 6) -- VL_ITEM
      quantity := optDecimalField (getCell f 4) -- QTD
      unit := optStrField (getCell f 5) -- UNID
      icms_value := to_decimal (getCell f 14) -- VL_ICMS
      pis_value := to_decimal (getCell f 24) -- VL_PIS
      cofins_value := to_decimal (getCell f 30) -- VL_COFINS
      aliq_pis := optDecimalField (getCell f 21) -- ALIQ_PIS
      aliq_cofins := optDecimalField (getCell f 27) -- ALIQ_COFINS
      aliq_icms := optDecimalField (getCell f 13) -- ALIQ_ICMS
      vl_bc_pis := optDecimalField (getCell f 20) -- VL_BC_PIS
      vl_bc_cofins := optDecimalField (getCell f 26) -- VL_BC_COFINS
      vl_bc_icms := optDecimalField (getCell f 12) -- VL_BC_ICMS
      operation := "saida"
      cst_icms := some (pyStr (getCell f 9)) -- CST_ICMS
      cst_pis := some (pyStr (getCell f 19)) -- CST_PIS
      cst_cofins := some (pyStr (getCell f 25)) -- CST_COFINS
      document_number := optStrField numDoc
      document_key := optStrField chvNfe
      document_date := optDateField dtDoc }

/-- The `C170` rows that survive the direction filter of
`_extract_c170_sales`: `ind_oper == "1"` against the mapped `C100`
indicator. -/
def c170SalesSurvivors (rt : List RRec) : List RRec :=
  let c100 := rt.filter (fun rr => getCell rr.fields 0 == some "C100")
  (rt.filter (fun rr => getCell rr.fields 0 == some "C170")).filter
    (fun rr => indOperOf c100 rr == some "1")

/-- `EFDContribuicoesParser._extract_c170_sales`: empty `C100` or `C170`
slices (or no surviving sale rows) yield no items; otherwise each surviving
row is converted, skipping rows whose construction fails. -/
def extract_c170_sales (rt : List RRec) (products : List Rec) :
    List SPEDItem :=
  let c100 := rt.filter (fun rr => getCell rr.fields 0 == some "C100")
  if c100.isEmpty then []
  else
    let c170 := rt.filter (fun rr => getCell rr.fields 0 == some "C170")
    if c170.isEmpty then []
    else
      let sales := c170.filter (fun rr => indOperOf c100 rr == some "1")
      if sales.isEmpty then []
      else sales.filterMap (convertC170Sale c100 products)

/-- Row conversion of `_extract_a170_sales` for one surviving `A170`
record.  Column positions follow `EFDContribuicoesLayout.RECORD_A170` and
`RECORD_A100`; the `cfop` is the hard-coded service default `5933`. -/
def convertA170Sale (a100 : List RRec) (products : List Rec) (rr : RRec) :
    Option SPEDItem :=
  let f := rr.fields
  let parent := c100Lookup a100 rr.id_pai
  let numDoc := parentCell parent 7 -- NUM_DOC
  let chvNfse := parentCell parent 8 -- CHV_NFSE
  let dtDoc := parentCell parent 9 -- DT_DOC
  let codItem := getCell f 2 -- COD_ITEM
  let prod := mergeLookup products 1 codItem
  let ncm0 := zfill 8 (pyStr (prodCell prod 7)) -- COD_NCM
  let ncm := if ncm0.isEmpty || ncm0 == "00000000" then "00000000" else ncm0
  pydanticItem
    { ncm := ncm
      cfop := "5933"
      item_code := pyStr codItem
      description := cellObj (pyOr (prodCell prod 2) (getCell f 3)) -- DESCR_ITEM or DESCR_COMPL
      total_value := to_decimal (getCell f 4) -- VL_ITEM
      pis_value := to_decimal (getCell f 11) -- VL_PIS
      cofins_value := to_decimal (getCell f 15) -- VL_COFINS
      aliq_pis := optDecimalField (getCell f 10) -- ALIQ_PIS
      aliq_cofins := optDecimalField (getCell f 14) -- ALIQ_COFINS
      vl_bc_pis := optDecimalField (getCell f 9) -- VL_BC_PIS
      vl_bc_cofins := optDecimalField (getCell f 13) -- VL_BC_COFINS
      nat_bc_cred := optStrField (getCell f 6) -- NAT_BC_CRED
      operation := "saida"
      cst_pis := some (pyStr (getCell f 8)) -- CST_PIS
      cst_cofins := some (pyStr (getCell f 12)) -- CST_COFINS
      document_number := optStrField numDoc
      document_key := optStrField chvNfse
      document_date := optDateField dtDoc }

/-- `EFDContribuicoesParser._extract_a170_sales`. -/
def extract_a170_sales (rt : List RRec) (products : List Rec) :
    List SPEDItem :=
  let a100 := rt.filter (fun rr => getCell rr.fields 0 == some "A100")
  if a100.isEmpty then []
  else
    let a170 := rt.filter (fun rr => getCell rr.fields 0 == some "A170")
    if a170.isEmpty then []
    else
      let sales := a170.filter (fun rr => indOperOf a100 rr == some "1")
      if sales.isEmpty then []
      else sales.filterMap (convertA170Sale a100 products)

/-- `EFDContribuicoesParser._extract_data`: header, product lookup, `C170`
and `A170` sales; the purchase and expense collections are hard-coded
empty. -/
def extract_data_contrib (rt : List RRec) : Except Exc SPEDData :=
  match extract_header_contrib rt with
  | .error e => .error e
  | .ok header =>
      let products := build_product_lookup rt
      let c170 := extract_c170_sales rt products
      let a170 := extract_a170_sales rt products
      .ok ⟨"contribuicoes", header, c170 ++ a170, [], []⟩

/-- `EFDFiscalParser._extract_header`: like the contribution header but with
the `EFDFiscalLayout.RECORD_0000` column positions (`DT_INI` 3, `DT_FIN` 4,
`NOME` 5, `CNPJ` 6, `UF` 8). -/
def extract_header_fiscal (rt : List RRec) : Except Exc SPEDHeader :=
  match rt.find? (fun rr => getCell rr.fields 0 == some "0000") with
  | none => .error .valueError
  | some rr =>
      let f := rr.fields
      match getCell f 3, getCell f 4 with -- DT_INI, DT_FIN
      | some dtIni, some dtFin =>
          (match getCell f 6 with -- CNPJ
          | none => .error .attributeError
          | some cnpjRaw =>
              let cnpj := zfill 14 cnpjRaw
              match getCell f 5, getCell f 8 with -- NOME, UF
              | some nome, some uf =>
                  if digitsN 14 cnpj && ufPattern uf then
                    .ok ⟨"fiscal", cnpj, nome, parse_date dtIni,
                      parse_date dtFin, uf⟩
                  else .error .pydanticValidationError
              | _, _ => .error .pydanticValidationError)
      | _, _ => .error .typeError

/-- `EFDFiscalParser._build_participant_lookup`: the `0150` records give
`COD_PART` (column 1) and a `UF` column computed as the first two characters
of `str(COD_MUN)` (column 7: a NaN reads as "nan", so `UF` is always a
string), deduplicated on `COD_PART` keeping the first row. -/
def build_participant_lookup (rt : List RRec) : List (Cell × String) :=
  drop_duplicates_first (fun p => p.1)
    (((rt.filter (fun rr => getCell rr.fields 0 == some "0150")).map
        RRec.fields).map
      (fun r => (getCell r 1, (pyStr (getCell r 7)).take 2)))

/-- The `UF` cell a purchase row sees after the left merge with the
participant lookup on `cod_part`: the participant's computed `UF` string if
the key matches, NaN otherwise (including for NaN keys). -/
def participantUF (parts : List (Cell × String)) (key : Cell) : Cell :=
  match key with
  | none => none
  | some s =>
      match parts.find? (fun p => p.1 == some s) with
      | some p => some p.2
      | none => none

/-- Row conversion of `_extract_c170_purchases` for one surviving `C170`
record.  Column positions follow `EFDFiscalLayout.RECORD_C170` and
`RECORD_C100`; `participant_uf` is
`str(row.get("UF"))[:2] if row.get("UF") else None` — a truthiness test in
which a NaN is truthy. -/
def convertC170Purchase (c100 : List RRec) (products : List Rec)
    (parts : List (Cell × String)) (rr : RRec) : Option SPEDItem :=
  let f := rr.fields
  let parent := c100Lookup c100 rr.id_pai
  let codPart := parentCell parent 3 -- COD_PART
  let codItem := getCell f 2 -- COD_ITEM
  let prod := mergeLookup products 1 codItem
  let ncm0 := zfill 8 (pyStr (prodCell prod 7)) -- COD_NCM
  let ncm := if ncm0.isEmpty || ncm0 == "00000000" then "00000000" else ncm0
  let ufCell := participantUF parts codPart
  pydanticItem
    { ncm := ncm
      cfop := zfill 4 (pyStr (getCell f 10)) -- CFOP
      item_code := pyStr codItem
      description := cellObj (pyOr (prodCell prod 2) (getCell f 3)) -- DESCR_ITEM or DESCR_COMPL
      total_value := to_decimal (getCell f 6) -- VL_ITEM
      icms_value := to_decimal (getCell f 14) -- VL_ICMS
      pis_value := to_decimal (getCell f 29) -- VL_PIS
      cofins_value := to_decimal (getCell f 35) -- VL_COFINS
      operation := "entrada"
      participant_uf :=
        if pyTruthy ufCell then some ((pyStr ufCell).take 2) else none
      cst_icms := some (pyStr (getCell f 9)) -- CST_ICMS
      cst_pis := some (pyStr (getCell f 24)) -- CST_PIS
      cst_cofins := some (pyStr (getCell f 30)) -- CST_COFINS
    }

/-- `EFDFiscalParser._extract_c170_purchases`: like the sales extraction but
keeping `ind_oper == "0"` rows (entradas) and joining the participant
lookup for the counterparty state. -/
def extract_c170_purchases (rt : List RRec) (products : List Rec)
    (parts : List (Cell × String)) : List SPEDItem :=
  let c100 := rt.filter (fun rr => getCell rr.fields 0 == some "C100")
  if c100.isEmpty then []
  else
    let c170 := rt.filter (fun rr => getCell rr.fields 0 == some "C170")
    if c170.isEmpty then []
    else
      let purchases := c170.filter (fun rr => indOperOf c100 rr == some "0")
      if purchases.isEmpty then []
      else purchases.filterMap (convertC170Purchase c100 products parts)

/-- `EFDFiscalParser._extract_data`: header, product and participant
lookups, `C170` purchases; the sales and expense collections are hard-coded
empty. -/
def extract_data_fiscal (rt : List RRec) : Except Exc SPEDData :=
  match extract_header_fiscal rt with
  | .error e => .error e
  | .ok header =>
      let products := build_product_lookup rt
      let parts := build_participant_lookup rt
      let c170 := extract_c170_purchases rt products parts
      .ok ⟨"fiscal", header, [], c170, []⟩

/-- The per-family constants a `SPEDParser` subclass declares, together
with its `_extract_data`. -/
structure ParserCfg where
  num_columns : Nat
  parent_codes : List String
  end_marker : String
  extract_data : List RRec → Except Exc SPEDData

/-- The body of the `try` block of `SPEDParser.parse`, from an
already-decoded record table: trim at the end marker, assign parent ids,
raise `SPEDEmptyFileError` on an empty table, then extract. -/
def parse_attempt (cfg : ParserCfg) (t : Table) : Except Exc SPEDData :=
  let t1 := trim_at_end_marker cfg.end_marker t
  let rt := assign_parent_ids cfg.parent_codes t1
  if rt.isEmpty then .error .spedEmptyFileError
  else cfg.extract_data rt

/-- `SPEDParser.parse` from an already-decoded record table: the body with
its exceptions mapped by the `except` clauses. -/
def sped_parse (cfg : ParserCfg) (t : Table) : Except Exc SPEDData :=
  match parse_attempt cfg t with
  | .ok d => .ok d
  | .error e => .error (parseExcMap e)

/-- One decoded line split into cells, as the `pd.read_csv` call of
`_read_file` does with a fixed list of column names: fields are separated
by the pipe delimiter, empty fields decode to NaN, and columns are
truncated to the declared count (missing trailing columns read as NaN
through `getCell`). -/
def splitLine (numCols : Nat) (line : String) : Rec :=
  (((line.splitOn "|").map
      (fun fld => if fld.isEmpty then none else some fld)).take numCols)

/-- The C-engine `pd.read_csv` call of `_read_file` on decoded lines:
blank lines are skipped, and an input with no data rows raises
`pandas.errors.EmptyDataError` — a `ValueError` that the
`except (ParserError, csv.Error)` clause of `_read_file` does not catch,
so it propagates out of `_read_file`. -/
def read_file (numCols : Nat) (lines : List String) : Except Exc Table :=
  let dataLines := lines.filter (fun l => !l.isEmpty)
  if dataLines.isEmpty then .error .emptyDataError
  else .ok (dataLines.map (splitLine numCols))

/-- `SPEDParser.parse` from decoded input lines: `_read_file`, then the
table pipeline, with the `except` clauses of `parse` wrapping every
exception of the body. -/
def sped_parse_lines (cfg : ParserCfg) (lines : List String) :
    Except Exc SPEDData :=
  match read_file cfg.num_columns lines with
  | .error e => .error (parseExcMap e)
  | .ok t => sped_parse cfg t

/-- `PARENT_CODES_CONTRIBUICOES` from `constants/layouts.py`. -/
def PARENT_CODES_CONTRIBUICOES : List String :=
  ["0000", "0140", "A100", "C100", "C180", "C190", "C380", "C400", "C500",
   "C600", "C800", "D100", "D500", "F100", "F120", "F130", "F150", "F200",
   "F500", "F600", "F700", "F800", "I100", "M100", "M200", "M300", "M350",
   "M400", "M500", "M600", "M700", "M800", "P100", "P200", "1010", "1020",
   "1050", "1100", "1200", "1300", "1500", "1600", "1700", "1800", "1900"]

/-- `PARENT_CODES_FISCAL` from `constants/layouts.py`. -/
def PARENT_CODES_FISCAL : List String :=
  ["0000",
   "C100", "C300", "C350", "C400", "C495", "C500", "C600", "C700", "C800",
   "C860",
   "D100", "D300", "D350", "D400", "D500", "D600", "D695", "D700", "D750",
   "E100", "E200", "E300", "E500",
   "G110",
   "H005",
   "K100", "K200", "K210", "K220", "K230", "K250", "K260", "K270", "K280",
   "K290", "K300",
   "1100", "1200", "1300", "1350", "1390", "1400", "1500", "1600", "1601",
   "1700", "1800", "1900", "1960", "1970", "1980"]

/-- `PARENT_CODES_ECD` from `constants/layouts.py`. -/
def PARENT_CODES_ECD : List String :=
  ["0000", "0001", "C001", "C040", "C050", "C150", "C600", "I001", "I010",
   "I050", "I150"]

/-- The `EFDContribuicoesParser` class constants and extractor. -/
def contribCfg : ParserCfg :=
  ⟨40, PARENT_CODES_CONTRIBUICOES, "9999", extract_data_contrib⟩

/-- The `EFDFiscalParser` class constants and extractor. -/
def fiscalCfg : ParserCfg :=
  ⟨42, PARENT_CODES_FISCAL, "9999", extract_data_fiscal⟩

/-- The `ECDParser` end marker. -/
def ECD_END_MARKER : String := "I990"

/-! Concrete tables used to instantiate the theorems below. -/

/-- A nonempty table with no `0000` identification record. -/
def tNoId : Table := [[some "C100"]]

/-- A minimal well-formed contribution file: just its identification
record. -/
def tContribOk : Table :=
  [[some "0000", some "006", some "0", none, none, some "01012024",
    some "31012024", some "ACME", some "12345678000195", some "SP"]]

/-- The resolved record table of `tContribOk`. -/
def rtContribOk : List RRec :=
  assign_parent_ids PARENT_CODES_CONTRIBUICOES
    (trim_at_end_marker "9999" tContribOk)

/-- The header extracted from `tContribOk`. -/
def hdrContribOk : SPEDHeader :=
  ⟨"contribuicoes", "12345678000195", "ACME", ⟨2024, 1, 1⟩, ⟨2024, 1, 31⟩,
    "SP"⟩

/-- A minimal well-formed fiscal file: just its identification record
(`EFDFiscalLayout.RECORD_0000` positions). -/
def tFiscalOk : Table :=
  [[some "0000", some "017", some "0", some "01012024", some "31012024",
    some "ACME", some "12345678000195", none, some "SP"]]

/-- The resolved record table of `tFiscalOk`. -/
def rtFiscalOk : List RRec :=
  assign_parent_ids PARENT_CODES_FISCAL (trim_at_end_marker "9999" tFiscalOk)

/-- The header extracted from `tFiscalOk`. -/
def hdrFiscalOk : SPEDHeader :=
  ⟨"fiscal", "12345678000195", "ACME", ⟨2024, 1, 1⟩, ⟨2024, 1, 31⟩, "SP"⟩

/-- A contribution file with one outgoing `C170` sale line whose item code
has no `0200` product record: the product lookup misses. -/
def tMissingLookup : Table :=
  [[some "0000", some "006", some "0", none, none, some "01012024",
    some "31012024", some "ACME", some "12345678000195", some "SP"],
   [some "C100", some "1", none, none, none, none, none, some "42", none,
    some "05012024"],
   [some "C170", none, some "X1", none, none, none, some "10,00", none,
    none, some "000", some "5102"]]

/-- The resolved record table of `tMissingLookup`. -/
def rtMissingLookup : List RRec :=
  assign_parent_ids PARENT_CODES_CONTRIBUICOES
    (trim_at_end_marker "9999" tMissingLookup)

/-- A contribution file with one outgoing `C170` sale line carrying an
unparseable quantity text, and a matching `0200` product record so the row
passes validation. -/
def tQtdUnparseable : Table :=
  [[some "0000", some "006", some "0", none, none, some "01012024",
    some "31012024", some "ACME", some "12345678000195", some "SP"],
   [some "0200", some "P1", some "Widget", none, none, none, none,
    some "12345678"],
   [some "C100", some "1", none, none, none, none, none, some "77",
    some "KEY", some "05012024"],
   [some "C170", none, some "P1", none, some "abc", some "UN", some "10,00",
    none, none, some "000", some "5102"]]

/-- A contribution file that emits exactly one sale item. -/
def tEmitOne : Table :=
  [[some "0000", some "006", some "0", none, none, some "01012024",
    some "31012024", some "ACME", some "12345678000195", some "SP"],
   [some "0200", some "P1", some "Desc", none, none, none, none,
    some "00123456"],
   [some "C100", some "1", none, none, none, none, none, some "77",
    some "KEY", some "05012024"],
   [some "C170", none, some "P1", none, none, none, some "10,00", none,
    none, some "000", some "5102"]]

/-- The resolved record table of `tEmitOne`. -/
def rtEmitOne : List RRec :=
  assign_parent_ids PARENT_CODES_CONTRIBUICOES
    (trim_at_end_marker "9999" tEmitOne)

/-- The one item `tEmitOne` emits. -/
def itemEmitOne : SPEDItem :=
  { ncm := "00123456"
    cfop := "5102"
    item_code := "P1"
    description := some "Desc"
    total_value := to_decimal (some "10,00")
    quantity := none
    unit := none
    icms_value := .num 0
    pis_value := .num 0
    cofins_value := .num 0
    ipi_value := none
    aliq_pis := none
    aliq_cofins := none
    aliq_icms := none
    vl_bc_pis := none
    vl_bc_cofins := none
    vl_bc_icms := none
    cst_pis := some "nan"
    cst_cofins := some "nan"
    cst_icms := some "000"
    nat_bc_cred := none
    document_number := some "77"
    document_key := some "KEY"
    document_date := some ⟨2024, 1, 5⟩
    operation := "saida"
    participant_uf := none }

/-- An ECD-style table: record-type codes live in column 1 behind the
leading delimiter, so column 0 is the empty field. -/
def tEcdStyle : Table :=
  [[some "", some "0000", some "LECD", some "01012024", some "31122024"],
   [some "", some "I990", some "2"]]

/-- A table with two parent-type records (for codes `["C100"]`) around a
child. -/
def tTwoParents : Table :=
  [[some "C100"], [some "X"], [some "C100"]]

/-- A table with no parent-type records at all. -/
def tNoParents : Table := [[some "A"], [some "B"]]

/-- A table whose end marker is followed by trailing noise. -/
def tMarkerNoise : Table := [[some "0000"], [some "9999"], [some "JUNK"]]

section Check

example : zfill 8 "nan" = "00000nan" := by decide
example : zfill 4 "12" = "0012" := by decide
example : zfill 5 "-12" = "-0012" := by decide
example : digitsN 8 "00000nan" = false := by decide
example : trim_at_end_marker "9999" [[some "0000"], [some "9999"], [some "X"]]
    = [[some "0000"], [some "9999"]] := by decide
example : (assign_parent_ids ["C100"]
    [[some "0000"], [some "C100"], [some "C170"]]).map RRec.id_pai
    = [none, some 1, some 1] := by decide
example : to_decimal (some "1234,56") = .num ((123456 : ℚ) / 10 ^ 2) := rfl
example : to_decimal (some "1234,56") = .num 1234.56 := by
  rw [show to_decimal (some "1234,56") = .num ((123456 : ℚ) / 10 ^ 2) from rfl]
  norm_num
example : to_decimal (some "") = .num 0 := rfl
example : to_decimal (some "abc") = .num 0 := rfl
example : to_decimal none = .num 0 := rfl
example : optDecimalField (some "abc") = some (.num 0) := rfl
example : optDecimalField none = none := by decide
example : parse_date "05012024" = ⟨2024, 1, 5⟩ := by decide
example : parse_date "99999999" = sentinelDate := by decide
example : sped_parse contribCfg tNoId = .error .spedParseError := rfl
example : extract_data_contrib rtContribOk
    = .ok ⟨"contribuicoes", hdrContribOk, [], [], []⟩ := rfl
example : extract_data_fiscal rtFiscalOk
    = .ok ⟨"fiscal", hdrFiscalOk, [], [], []⟩ := rfl
example : (c170SalesSurvivors rtMissingLookup).length = 1 := rfl
example : (sped_parse contribCfg tMissingLookup).map
    (fun d => d.sales_items.length) = .ok 0 := rfl
example : (sped_parse contribCfg tQtdUnparseable).map
    (fun d => d.sales_items.map SPEDItem.quantity)
    = .ok [some (.num 0)] := rfl
example : extract_data_contrib rtEmitOne
    = .ok ⟨"contribuicoes", hdrContribOk, [itemEmitOne], [], []⟩ := rfl
example : sped_parse_lines contribCfg [] = .error .spedParseError := rfl

end Check

/-! Helper lemmas about the trimmer. -/

theorem trim_take_eq (marker : String) (t : Table) :
    trim_at_end_marker marker t
      = t.take (trim_at_end_marker marker t).length := by
  induction t with
  | nil => rfl
  | cons r rs ih =>
      unfold trim_at_end_marker
      by_cases h : col0Str r = marker
      · simp [h]
      · simpa [h, List.take_succ_cons] using ih

theorem trim_length_le (marker : String) (t : Table) :
    (trim_at_end_marker marker t).length ≤ t.length := by
  induction t with
  | nil => exact Nat.le_refl _
  | cons r rs ih =>
      unfold trim_at_end_marker
      by_cases h : col0Str r = marker
      · simp [h]
      · simpa [h] using ih

theorem trim_mem {marker : String} {t : Table} {r : Rec}
    (h : r ∈ trim_at_end_marker marker t) : r ∈ t := by
  induction t with
  | nil => simp [trim_at_end_marker] at h
  | cons a rs ih =>
      unfold trim_at_end_marker at h
      by_cases hc : col0Str a = marker
      · simp [hc] at h
        simp [h]
      · simp [hc] at h
        rcases h with h | h
        · simp [h]
        · exact List.mem_cons_of_mem _ (ih h)

theorem trim_ne_nil {marker : String} {t : Table} (h : t ≠ []) :
    trim_at_end_marker marker t ≠ [] := by
  cases t with
  | nil => exact absurd rfl h
  | cons a rs =>
      unfold trim_at_end_marker
      by_cases hc : col0Str a = marker <;> simp [hc]

theorem trim_of_no_marker {marker : String} {t : Table}
    (h : ∀ r ∈ t, col0Str r ≠ marker) : trim_at_end_marker marker t = t := by
  induction t with
  | nil => rfl
  | cons a rs ih =>
      unfold trim_at_end_marker
      have ha : col0Str a ≠ marker := h a (List.mem_cons_self _ _)
      rw [if_neg ha, ih (fun r hr => h r (List.mem_cons_of_mem _ hr))]

theorem trim_first_marker {marker : String} {t : Table} :
    ∀ k r, t.get? k = some r → col0Str r = marker →
    (∀ m rm, m < k → t.get? m = some rm → col0Str rm ≠ marker) →
    trim_at_end_marker marker t = t.take (k + 1) := by
  induction t with
  | nil => intro k r hk _ _; simp at hk
  | cons a rs ih =>
      intro k r hk hm hmin
      cases k with
      | zero =>
          have haeq : a = r := by simpa using hk
          subst haeq
          unfold trim_at_end_marker
          rw [if_pos hm]
          simp
      | succ k =>
          have ha : col0Str a ≠ marker := hmin 0 a (Nat.succ_pos _) (by simp)
          unfold trim_at_end_marker
          rw [if_neg ha]
          have hstep := ih k r (by simpa using hk) hm
            (fun m rm hmk hmm =>
              hmin (m + 1) rm (Nat.succ_lt_succ hmk) (by simpa using hmm))
          rw [hstep]
          simp [List.take_succ_cons]

theorem getLast?_cons_of_ne_nil {α : Type} {a : α} {l : List α}
    (h : l ≠ []) : (a :: l).getLast? = l.getLast? := by
  cases l with
  | nil => exact absurd rfl h
  | cons b l2 => exact List.getLast?_cons_cons ..

theorem trim_last_marker {marker : String} {t : Table} :
    ∀ k r, t.get? k = some r → col0Str r = marker →
    (∀ m rm, m < k → t.get? m = some rm → col0Str rm ≠ marker) →
    ((trim_at_end_marker marker t).getLast?).map col0Str = some marker := by
  induction t with
  | nil => intro k r hk _ _; simp at hk
  | cons a rs ih =>
      intro k r hk hm hmin
      cases k with
      | zero =>
          have haeq : a = r := by simpa using hk
          subst haeq
          unfold trim_at_end_marker
          rw [if_pos hm]
          simp [hm]
      | succ k =>
          have ha : col0Str a ≠ marker := hmin 0 a (Nat.succ_pos _) (by simp)
          unfold trim_at_end_marker
          rw [if_neg ha]
          have hrs : rs ≠ [] := by
            intro hnil
            rw [hnil] at hk
            simp at hk
          rw [getLast?_cons_of_ne_nil (trim_ne_nil hrs)]
          exact ih k r (by simpa using hk) hm
            (fun m rm hmk hmm =>
              hmin (m + 1) rm (Nat.succ_lt_succ hmk) (by simpa using hmm))

/-! Helper lemmas about the hierarchy resolver. -/

theorem assignAux_get? (codes : List String) (t : Table) :
    ∀ (i : Nat) (cur : Option Nat) (k : Nat),
    (assignAux codes i cur t).get? k
      = (t.get? k).map
          (fun r => ⟨i + k, parentFold codes i cur (t.take (k + 1)), r⟩) := by
  induction t with
  | nil => intro i cur k; cases k <;> rfl
  | cons r rs ih =>
      intro i cur k
      cases k with
      | zero => simp [assignAux, parentFold]
      | succ k =>
          show (assignAux codes (i + 1) _ rs).get? k = _
          rw [ih]
          simp only [show i + 1 + k = i + (k + 1) from by omega]
          rfl

theorem assign_parent_ids_get? (codes : List String) (t : Table) (k : Nat) :
    (assign_parent_ids codes t).get? k
      = (t.get? k).map
          (fun r => ⟨k, parentFold codes 0 none (t.take (k + 1)), r⟩) := by
  simpa using assignAux_get? codes t 0 none k

theorem parentFold_append (codes : List String) :
    ∀ (l1 l2 : Table) (i : Nat) (cur : Option Nat),
    parentFold codes i cur (l1 ++ l2)
      = parentFold codes (i + l1.length) (parentFold codes i cur l1) l2 := by
  intro l1
  induction l1 with
  | nil => intro l2 i cur; simp [parentFold]
  | cons r rs ih =>
      intro l2 i cur
      show parentFold codes (i + 1) _ (rs ++ l2) = _
      rw [ih]
      simp only [show i + 1 + rs.length = i + (rs.length + 1) from by omega]
      rfl

theorem parentFold_no_parents (codes : List String) :
    ∀ (l : Table) (i : Nat) (cur : Option Nat),
    (∀ r ∈ l, isParentRec codes r = false) →
    parentFold codes i cur l = cur := by
  intro l
  induction l with
  | nil => intro i cur _; rfl
  | cons r rs ih =>
      intro i cur h
      have hr : isParentRec codes r = false := h r (List.mem_cons_self _ _)
      show parentFold codes (i + 1) _ rs = cur
      rw [hr]
      exact ih (i + 1) cur (fun x hx => h x (List.mem_cons_of_mem _ hx))

theorem parentFold_take_parent (codes : List String) {t : Table} {p : Nat}
    {rp : Rec} (hp : t.get? p = some rp) (hpar : isParentRec codes rp = true) :
    parentFold codes 0 none (t.take (p + 1)) = some p := by
  obtain ⟨hlen, -⟩ := List.get?_eq_some.mp hp
  have hget : t[p]? = some rp := by
    rw [← List.get?_eq_getElem?]
    exact hp
  have htake : t.take (p + 1) = t.take p ++ [rp] := by
    rw [List.take_succ, hget]
    rfl
  have hlen2 : (t.take p).length = p := by
    rw [List.length_take]
    omega
  rw [htake, parentFold_append, hlen2, Nat.zero_add]
  show (if isParentRec codes rp then some p
      else parentFold codes 0 none (t.take p)) = some p
  simp [hpar]

theorem parentFold_between (codes : List String) {t : Table} {p q k : Nat}
    {rp rq : Rec} (hp : t.get? p = some rp)
    (hppar : isParentRec codes rp = true)
    (hq : t.get? q = some rq) (_hqpar : isParentRec codes rq = true)
    (hpk : p ≤ k) (hkq : k < q)
    (hmin : ∀ m rm, p < m → m < q → t.get? m = some rm →
      isParentRec codes rm = false) :
    parentFold codes 0 none (t.take (k + 1)) = some p := by
  obtain ⟨hqlen, -⟩ := List.get?_eq_some.mp hq
  have h1 : (t.take (k + 1)).take (p + 1) = t.take (p + 1) := by
    rw [List.take_take]
    congr 1
    omega
  have hlen1 : (t.take (p + 1)).length = p + 1 := by
    rw [List.length_take]
    omega
  rw [← List.take_append_drop (p + 1) (t.take (k + 1)), h1, parentFold_append,
    hlen1, Nat.zero_add, parentFold_take_parent codes hp hppar]
  apply parentFold_no_parents
  intro x hx
  obtain ⟨j, hj⟩ := List.mem_iff_get?.mp hx
  obtain ⟨hjl, -⟩ := List.get?_eq_some.mp hj
  have hjlen : j < (k + 1) - (p + 1) := by
    rw [List.length_drop, List.length_take] at hjl
    omega
  have hx2 : t.get? (p + 1 + j) = some x := by
    rw [List.get?_drop] at hj
    rwa [List.get?_take (by omega)] at hj
  exact hmin (p + 1 + j) x (by omega) (by omega) hx2

theorem assign_id_pai_none (codes : List String) {t : Table}
    (h : ∀ r ∈ t, isParentRec codes r = false) :
    ∀ rr ∈ assign_parent_ids codes t, rr.id_pai = none := by
  intro rr hrr
  obtain ⟨k, hk⟩ := List.mem_iff_get?.mp hrr
  rw [assign_parent_ids_get? codes t k] at hk
  cases ht : t.get? k with
  | none => rw [ht] at hk; exact Option.noConfusion hk
  | some r =>
      rw [ht] at hk
      obtain rfl := Option.some.inj hk
      show parentFold codes 0 none (t.take (k + 1)) = none
      apply parentFold_no_parents
      intro x hx
      exact h x (List.take_subset _ _ hx)

theorem assignAux_length (codes : List String) :
    ∀ (t : Table) (i : Nat) (cur : Option Nat),
    (assignAux codes i cur t).length = t.length := by
  intro t
  induction t with
  | nil => intro i cur; rfl
  | cons r rs ih =>
      intro i cur
      show (assignAux codes (i + 1) _ rs).length + 1 = rs.length + 1
      rw [ih]

theorem assign_length (codes : List String) (t : Table) :
    (assign_parent_ids codes t).length = t.length :=
  assignAux_length codes t 0 none

theorem assign_fields_mem {codes : List String} {t : Table} :
    ∀ rr ∈ assign_parent_ids codes t, rr.fields ∈ t := by
  intro rr hrr
  obtain ⟨k, hk⟩ := List.mem_iff_get?.mp hrr
  rw [assign_parent_ids_get? codes t k] at hk
  cases ht : t.get? k with
  | none => rw [ht] at hk; exact Option.noConfusion hk
  | some r =>
      rw [ht] at hk
      obtain rfl := Option.some.inj hk
      exact List.get?_mem ht

/-! Claim theorems. -/

/-- C2: after hierarchy resolution, row ids are file-order ordinals; every
record between two consecutive parent-type records (inclusive of the first,
exclusive of the second) carries the first parent's row id as its parent
id; a parent-type record's parent id is its own row id; and a table without
parent-type records resolves with all-null parent ids (resolution is a
total function, so it always succeeds). -/
theorem claim_C2_hierarchy (codes : List String) (t : Table) :
    (∀ k rr, (assign_parent_ids codes t).get? k = some rr → rr.id = k) ∧
    (∀ p rp, t.get? p = some rp → isParentRec codes rp = true →
      ((assign_parent_ids codes t).get? p).map RRec.id_pai = some (some p)) ∧
    (∀ p q k rp rq, t.get? p = some rp → isParentRec codes rp = true →
      t.get? q = some rq → isParentRec codes rq = true →
      p ≤ k → k < q →
      (∀ m rm, p < m → m < q → t.get? m = some rm →
        isParentRec codes rm = false) →
      ((assign_parent_ids codes t).get? k).map RRec.id_pai = some (some p)) ∧
    ((∀ r ∈ t, isParentRec codes r = false) →
      ∀ rr ∈ assign_parent_ids codes t, rr.id_pai = none) := by
  refine ⟨?_, ?_, ?_, assign_id_pai_none codes⟩
  · intro k rr h
    rw [assign_parent_ids_get? codes t k] at h
    cases ht : t.get? k with
    | none => rw [ht] at h; exact Option.noConfusion h
    | some r =>
        rw [ht] at h
        obtain rfl := Option.some.inj h
        rfl
  · intro p rp hp hpar
    rw [assign_parent_ids_get? codes t p, hp]
    show some (parentFold codes 0 none (t.take (p + 1))) = some (some p)
    rw [parentFold_take_parent codes hp hpar]
  · intro p q k rp rq hp hppar hq hqpar hpk hkq hmin
    obtain ⟨hqlen, -⟩ := List.get?_eq_some.mp hq
    have hklen : k < t.length := by omega
    have hrk : t.get? k = some (t.get ⟨k, hklen⟩) := List.get?_eq_get hklen
    rw [assign_parent_ids_get? codes t k, hrk]
    show some (parentFold codes 0 none (t.take (k + 1))) = some (some p)
    rw [parentFold_between codes hp hppar hq hqpar hpk hkq hmin]

/-- Witness for C2: concrete instantiation of all four parts (parts 1-3 on
`tTwoParents` with parent-type code `C100`; part 4 on `tNoParents`). -/
theorem claim_C2_hierarchy_witness :
    (⟨1, some 0, [some "X"]⟩ : RRec).id = 1 ∧
    ((assign_parent_ids ["C100"] tTwoParents).get? 0).map RRec.id_pai
      = some (some 0) ∧
    ((assign_parent_ids ["C100"] tTwoParents).get? 1).map RRec.id_pai
      = some (some 0) ∧
    (⟨0, none, [some "A"]⟩ : RRec).id_pai = none := by
  refine ⟨?_, ?_, ?_, ?_⟩
  · exact (claim_C2_hierarchy ["C100"] tTwoParents).1 1
      ⟨1, some 0, [some "X"]⟩ (by decide)
  · exact (claim_C2_hierarchy ["C100"] tTwoParents).2.1 0 [some "C100"]
      rfl (by decide)
  · exact (claim_C2_hierarchy ["C100"] tTwoParents).2.2.1 0 2 1
      [some "C100"] [some "C100"] rfl (by decide) rfl (by decide)
      (by omega) (by omega)
      (by
        intro m rm h1 h2 hm
        have hm1 : m = 1 := by omega
        subst hm1
        cases Option.some.inj hm
        decide)
  · exact (claim_C2_hierarchy ["C100"] tNoParents).2.2.2 (by decide)
      ⟨0, none, [some "A"]⟩ (by decide)

/-- C3: end-marker trimming returns a prefix (its own-length take) of the
input, of length at most the input's; when some record's column-0 type
equals the end marker, the result is the input up to and including the
first such record, so the trimmed table's last record type equals the
marker; when no record matches, the table is returned unchanged (trimming
is total — no error). -/
theorem claim_C3_trim (marker : String) (t : Table) :
    trim_at_end_marker marker t
      = t.take (trim_at_end_marker marker t).length ∧
    (trim_at_end_marker marker t).length ≤ t.length ∧
    (∀ k r, t.get? k = some r → col0Str r = marker →
      (∀ m rm, m < k → t.get? m = some rm → col0Str rm ≠ marker) →
      trim_at_end_marker marker t = t.take (k + 1) ∧
      ((trim_at_end_marker marker t).getLast?).map col0Str = some marker) ∧
    ((∀ r ∈ t, col0Str r ≠ marker) → trim_at_end_marker marker t = t) :=
  ⟨trim_take_eq marker t, trim_length_le marker t,
    fun k r hk hm hmin =>
      ⟨trim_first_marker k r hk hm hmin, trim_last_marker k r hk hm hmin⟩,
    trim_of_no_marker⟩

/-- Witness for C3: the marker-bearing table `tMarkerNoise` is cut at its
`9999` record, and the marker-free `tEcdStyle` is returned unchanged. -/
theorem claim_C3_trim_witness :
    trim_at_end_marker "9999" tMarkerNoise = tMarkerNoise.take 2 ∧
    ((trim_at_end_marker "9999" tMarkerNoise).getLast?).map col0Str
      = some "9999" ∧
    trim_at_end_marker "9999" tEcdStyle = tEcdStyle := by
  have h3 := (claim_C3_trim "9999" tMarkerNoise).2.2.1 1 [some "9999"]
    rfl rfl
    (by
      intro m rm h1 hm
      have hm0 : m = 0 := by omega
      subst hm0
      cases Option.some.inj hm
      decide)
  have h4 := (claim_C3_trim "9999" tEcdStyle).2.2.2 (by decide)
  exact ⟨h3.1, h3.2, h4⟩

/-- C10: the base-class trimmer and parent marking test column 0 while the
ECD extractors match type codes in column 1; so on an ECD-style table
whose column 0 never holds `I990` (as the trimmer's string view) nor any
ECD parent code — even with an `I990` record present in column 1 — the
trimmer returns the table unchanged and every resolved record has a null
parent id. -/
theorem claim_C10_ecd_column_mismatch (t : Table)
    (h0 : ∀ r ∈ t, col0Str r ≠ ECD_END_MARKER)
    (h1 : ∀ r ∈ t, isParentRec PARENT_CODES_ECD r = false)
    (_h2 : ∃ r ∈ t, getCell r 1 = some "I990") :
    trim_at_end_marker ECD_END_MARKER t = t ∧
    ∀ rr ∈ assign_parent_ids PARENT_CODES_ECD t, rr.id_pai = none :=
  ⟨trim_of_no_marker h0, assign_id_pai_none _ h1⟩

/-- Witness for C10 on the concrete ECD-style table. -/
theorem claim_C10_witness :
    trim_at_end_marker ECD_END_MARKER tEcdStyle = tEcdStyle ∧
    (⟨0, none, [some "", some "0000", some "LECD", some "01012024",
      some "31122024"]⟩ : RRec).id_pai = none := by
  have h := claim_C10_ecd_column_mismatch tEcdStyle (by decide) (by decide)
    ⟨[some "", some "I990", some "2"], by decide, by decide⟩
  exact ⟨h.1, h.2 _ (by decide)⟩

/-- C7 (amended): whenever the record table is empty after trimming and
hierarchy resolution, `parse` raises exactly `SPEDEmptyFileError` — never
an empty-but-successful result and never another error kind.  (A zero-byte
file does not reach this check: see the counterexample.) -/
theorem claim_C7_empty_table (cfg : ParserCfg) (t : Table)
    (h : assign_parent_ids cfg.parent_codes
      (trim_at_end_marker cfg.end_marker t) = []) :
    sped_parse cfg t = .error .spedEmptyFileError := by
  unfold sped_parse parse_attempt
  simp [h, parseExcMap]

/-- Witness for C7 (amended) at the empty table. -/
theorem claim_C7_empty_table_witness :
    sped_parse contribCfg [] = .error .spedEmptyFileError :=
  claim_C7_empty_table contribCfg [] rfl

/-- Counterexample for C7 as stated: a zero-byte (or blank) input never
reaches the empty-table check — the tokenizer raises `EmptyDataError`,
which `parse` wraps as `SPEDParseError`, not `SPEDEmptyFileError`. -/
theorem claim_C7_counterexample :
    sped_parse_lines contribCfg [] = .error .spedParseError ∧
    Exc.spedParseError ≠ Exc.spedEmptyFileError := ⟨rfl, by decide⟩

/-- C9: a parse either returns a result or fails with one of exactly three
error kinds — `SPEDEncodingError`, `SPEDEmptyFileError`, `SPEDParseError`;
every other exception of the body is wrapped by the `except` clauses. -/
theorem claim_C9_error_taxonomy (cfg : ParserCfg) (lines : List String)
    (e : Exc) (h : sped_parse_lines cfg lines = .error e) :
    e = .spedEncodingError ∨ e = .spedEmptyFileError ∨ e = .spedParseError := by
  have hmap : ∀ e2 : Exc, parseExcMap e2 = .spedEncodingError
      ∨ parseExcMap e2 = .spedEmptyFileError
      ∨ parseExcMap e2 = .spedParseError := by
    intro e2
    cases e2 <;> simp [parseExcMap]
  cases hr : read_file cfg.num_columns lines with
  | error e1 =>
      have hs : sped_parse_lines cfg lines = .error (parseExcMap e1) := by
        unfold sped_parse_lines
        rw [hr]
      rw [hs] at h
      rw [← Except.error.inj h]
      exact hmap e1
  | ok t =>
      have hs : sped_parse_lines cfg lines = sped_parse cfg t := by
        unfold sped_parse_lines
        rw [hr]
      rw [hs] at h
      unfold sped_parse at h
      cases ha : parse_attempt cfg t with
      | ok d => rw [ha] at h; exact Except.noConfusion h
      | error e1 =>
          rw [ha] at h
          rw [← Except.error.inj h]
          exact hmap e1

/-- Witness for C9 at the empty input. -/
theorem claim_C9_witness :
    Exc.spedParseError = .spedEncodingError
    ∨ Exc.spedParseError = .spedEmptyFileError
    ∨ Exc.spedParseError = .spedParseError :=
  claim_C9_error_taxonomy contribCfg [] .spedParseError rfl

/-- Counterexample for C1 as stated: on a decoded table without the `0000`
identification record, the parse does fail as a whole, but the caller
receives `SPEDParseError` (the extractor's `ValueError` wrapped by `parse`),
not `SPEDValidationError` — that class is defined in `exceptions.py` but
never raised. -/
theorem claim_C1_counterexample :
    sped_parse contribCfg tNoId = .error .spedParseError ∧
    Exc.spedParseError ≠ Exc.spedValidationError := ⟨rfl, by decide⟩

/-- C1 (amended): for every nonempty decoded record table without a `0000`
identification record, the contribution parse fails as a whole and the
caller receives `SPEDParseError`. -/
theorem claim_C1_no_identification (t : Table) (hne : t ≠ [])
    (h : ∀ r ∈ t, getCell r 0 ≠ some "0000") :
    sped_parse contribCfg t = .error .spedParseError := by
  set rt := assign_parent_ids PARENT_CODES_CONTRIBUICOES
    (trim_at_end_marker "9999" t) with hrt
  have hrtne : rt ≠ [] := by
    intro hnil
    have hlen := assign_length PARENT_CODES_CONTRIBUICOES
      (trim_at_end_marker "9999" t)
    rw [← hrt, hnil] at hlen
    exact trim_ne_nil hne (List.length_eq_zero.mp hlen.symm)
  have hfind : rt.find? (fun rr => getCell rr.fields 0 == some "0000")
      = none := by
    apply List.find?_eq_none.mpr
    intro rr hrr hbeq
    exact h rr.fields (trim_mem (assign_fields_mem rr (hrt ▸ hrr)))
      (beq_iff_eq.mp hbeq)
  have hhdr : extract_header_contrib rt = .error .valueError := by
    unfold extract_header_contrib
    rw [hfind]
  have hext : extract_data_contrib rt = .error .valueError := by
    unfold extract_data_contrib
    rw [hhdr]
  have hpa : parse_attempt contribCfg t = .error .valueError := by
    show (if rt.isEmpty then Except.error Exc.spedEmptyFileError
      else extract_data_contrib rt) = .error .valueError
    have hie : rt.isEmpty = false := by
      cases hrtc : rt with
      | nil => exact absurd hrtc hrtne
      | cons a as => rfl
    rw [hie]
    simpa using hext
  unfold sped_parse
  rw [hpa]
  rfl

/-- C4: the sales-family extractor returns a hard-coded empty purchase
collection and the purchase-family extractor a hard-coded empty sales
collection, for every input on which extraction succeeds — so cross-family
misuse yields an empty collection, never a partial one. -/
theorem claim_C4_directional_exclusivity :
    (∀ rt d, extract_data_contrib rt = .ok d → d.purchase_items = []) ∧
    (∀ rt d, extract_data_fiscal rt = .ok d → d.sales_items = []) := by
  constructor
  · intro rt d h
    unfold extract_data_contrib at h
    cases hh : extract_header_contrib rt with
    | error e => rw [hh] at h; exact Except.noConfusion h
    | ok hd =>
        rw [hh] at h
        obtain rfl := Except.ok.inj h
        rfl
  · intro rt d h
    unfold extract_data_fiscal at h
    cases hh : extract_header_fiscal rt with
    | error e => rw [hh] at h; exact Except.noConfusion h
    | ok hd =>
        rw [hh] at h
        obtain rfl := Except.ok.inj h
        rfl

/-- Witness for C4: both extractors succeed on their minimal valid files
with the opposite-direction collection empty. -/
theorem claim_C4_witness :
    (extract_data_contrib rtContribOk).map SPEDData.purchase_items
      = .ok [] ∧
    (extract_data_fiscal rtFiscalOk).map SPEDData.sales_items = .ok [] := by
  have h1 : extract_data_contrib rtContribOk
      = .ok ⟨"contribuicoes", hdrContribOk, [], [], []⟩ := rfl
  have h2 : extract_data_fiscal rtFiscalOk
      = .ok ⟨"fiscal", hdrFiscalOk, [], [], []⟩ := rfl
  constructor
  · rw [h1]
    exact congrArg Except.ok
      (claim_C4_directional_exclusivity.1 rtContribOk _ h1)
  · rw [h2]
    exact congrArg Except.ok
      (claim_C4_directional_exclusivity.2 rtFiscalOk _ h2)

/-! Helper lemmas about item validation. -/

theorem pydanticItem_digits {a : ItemArgs} {it : SPEDItem}
    (h : pydanticItem a = some it) :
    digitsN 8 it.ncm = true ∧ digitsN 4 it.cfop = true := by
  unfold pydanticItem at h
  split at h
  case isTrue hc =>
      obtain rfl := Option.some.inj h
      simp only [Bool.and_eq_true] at hc
      exact ⟨hc.1.1.1.1, hc.1.1.1.2⟩
  case isFalse => exact Option.noConfusion h

theorem pydanticItem_none_of_bad_ncm {a : ItemArgs}
    (h : digitsN 8 a.ncm = false) : pydanticItem a = none := by
  unfold pydanticItem
  rw [h]
  rfl

theorem mem_extract_c170_sales {rt : List RRec} {products : List Rec}
    {it : SPEDItem} (h : it ∈ extract_c170_sales rt products) :
    digitsN 8 it.ncm = true ∧ digitsN 4 it.cfop = true := by
  simp only [extract_c170_sales] at h
  split at h
  · exact absurd h (List.not_mem_nil it)
  · split at h
    · exact absurd h (List.not_mem_nil it)
    · split at h
      · exact absurd h (List.not_mem_nil it)
      · obtain ⟨rr, -, hc⟩ := List.mem_filterMap.mp h
        exact pydanticItem_digits hc

theorem mem_extract_a170_sales {rt : List RRec} {products : List Rec}
    {it : SPEDItem} (h : it ∈ extract_a170_sales rt products) :
    digitsN 8 it.ncm = true ∧ digitsN 4 it.cfop = true := by
  simp only [extract_a170_sales] at h
  split at h
  · exact absurd h (List.not_mem_nil it)
  · split at h
    · exact absurd h (List.not_mem_nil it)
    · split at h
      · exact absurd h (List.not_mem_nil it)
      · obtain ⟨rr, -, hc⟩ := List.mem_filterMap.mp h
        exact pydanticItem_digits hc

theorem mem_extract_c170_purchases {rt : List RRec} {products : List Rec}
    {parts : List (Cell × String)} {it : SPEDItem}
    (h : it ∈ extract_c170_purchases rt products parts) :
    digitsN 8 it.ncm = true ∧ digitsN 4 it.cfop = true := by
  simp only [extract_c170_purchases] at h
  split at h
  · exact absurd h (List.not_mem_nil it)
  · split at h
    · exact absurd h (List.not_mem_nil it)
    · split at h
      · exact absurd h (List.not_mem_nil it)
      · obtain ⟨rr, -, hc⟩ := List.mem_filterMap.mp h
        exact pydanticItem_digits hc

/-- C8: every emitted item carries an 8-digit product classification code
and a 4-digit operation classification code — rows whose padded codes
violate the fixed-length numeric schemas are dropped at construction, so
the property holds for all emitted items of both families. -/
theorem claim_C8_classification_codes :
    (∀ rt d, extract_data_contrib rt = .ok d →
      ∀ it ∈ d.sales_items,
        digitsN 8 it.ncm = true ∧ digitsN 4 it.cfop = true) ∧
    (∀ rt d, extract_data_fiscal rt = .ok d →
      ∀ it ∈ d.purchase_items,
        digitsN 8 it.ncm = true ∧ digitsN 4 it.cfop = true) := by
  constructor
  · intro rt d h it hit
    unfold extract_data_contrib at h
    cases hh : extract_header_contrib rt with
    | error e => rw [hh] at h; exact Except.noConfusion h
    | ok hd =>
        rw [hh] at h
        obtain rfl := Except.ok.inj h
        rcases List.mem_append.mp hit with hmem | hmem
        · exact mem_extract_c170_sales hmem
        · exact mem_extract_a170_sales hmem
  · intro rt d h it hit
    unfold extract_data_fiscal at h
    cases hh : extract_header_fiscal rt with
    | error e => rw [hh] at h; exact Except.noConfusion h
    | ok hd =>
        rw [hh] at h
        obtain rfl := Except.ok.inj h
        exact mem_extract_c170_purchases hit

/-- Witness for C8 on the one item emitted from `tEmitOne`. -/
theorem claim_C8_witness :
    digitsN 8 itemEmitOne.ncm = true ∧ digitsN 4 itemEmitOne.cfop = true := by
  have h : extract_data_contrib rtEmitOne
      = .ok ⟨"contribuicoes", hdrContribOk, [itemEmitOne], [], []⟩ := rfl
  exact claim_C8_classification_codes.1 rtEmitOne _ h itemEmitOne
    (by simp)

/-- Counterexample for C5 as stated: in `tMissingLookup` exactly one `C170`
row survives direction filtering, its `COD_ITEM` has no `0200` entry, and
the parse succeeds with zero emitted sale items — the row was dropped, not
emitted with null enrichment fields. -/
theorem claim_C5_counterexample :
    (c170SalesSurvivors rtMissingLookup).length = 1 ∧
    (sped_parse contribCfg tMissingLookup).map
      (fun d => d.sales_items.length) = .ok 0 := ⟨rfl, rfl⟩

/-- C5 (amended): the merge itself is a left join and keeps the row, but a
missing `0200` entry propagates NaN into the enrichment columns; the
zero-padded product code becomes the non-numeric string "00000nan", the
constructed entity fails the 8-digit schema, and the per-row handler drops
the row — so a surviving `C170` row whose `COD_ITEM` misses the product
lookup is never emitted. -/
theorem claim_C5_left_join_missing_drops (rt : List RRec) (rr : RRec)
    (_hsurv : rr ∈ c170SalesSurvivors rt)
    (hmiss : mergeLookup (build_product_lookup rt) 1 (getCell rr.fields 2)
      = none) :
    convertC170Sale (rt.filter (fun x => getCell x.fields 0 == some "C100"))
      (build_product_lookup rt) rr = none := by
  simp only [convertC170Sale, hmiss]
  apply pydanticItem_none_of_bad_ncm
  show digitsN 8 (if (zfill 8 (pyStr (prodCell none 7))).isEmpty
      || zfill 8 (pyStr (prodCell none 7)) == "00000000" then "00000000"
    else zfill 8 (pyStr (prodCell none 7))) = false
  decide

/-- Witness for C5 (amended) on the surviving row of `tMissingLookup`. -/
theorem claim_C5_amended_witness :
    convertC170Sale
      (rtMissingLookup.filter (fun x => getCell x.fields 0 == some "C100"))
      (build_product_lookup rtMissingLookup)
      ⟨2, some 1, [some "C170", none, some "X1", none, none, none,
        some "10,00", none, none, some "000", some "5102"]⟩ = none :=
  claim_C5_left_join_missing_drops rtMissingLookup _ (by decide) (by decide)

/-- Counterexample for C6 as stated: a present but unparseable quantity
text normalizes to decimal zero, not to "not present" — the emitted item of
`tQtdUnparseable` (whose `QTD` cell is "abc") has `quantity = some 0`. -/
theorem claim_C6_counterexample :
    (sped_parse contribCfg tQtdUnparseable).map
      (fun d => d.sales_items.map SPEDItem.quantity)
      = .ok [some (.num 0)] ∧
    some (PyDecimal.num 0) ≠ (none : Option PyDecimal) := ⟨rfl, by decide⟩

/-- C6 (amended): comma-decimal text normalizes to its exact decimal value
("1234,56" to 1234.56); unparseable or empty text and NaN normalize to
decimal zero under `_to_decimal`; for optional fields the extractors map an
absent (NaN) cell to null, but a present unparseable text still normalizes
to zero, exactly as for required fields. -/
theorem claim_C6_normalization :
    to_decimal (some "1234,56") = .num 1234.56 ∧
    (∀ s, pyDecimalParse (replaceCommaDot s) = none →
      to_decimal (some s) = .num 0) ∧
    to_decimal (some "") = .num 0 ∧
    to_decimal none = .num 0 ∧
    optDecimalField none = none ∧
    (∀ s, optDecimalField (some s) = some (to_decimal (some s))) := by
  refine ⟨?_, ?_, rfl, rfl, rfl, fun s => rfl⟩
  · rw [show to_decimal (some "1234,56")
      = .num ((123456 : ℚ) / 10 ^ 2) from rfl]
    norm_num
  · intro s h
    show (pyDecimalParse (replaceCommaDot s)).getD (PyDecimal.num 0)
      = PyDecimal.num 0
    rw [h]
    rfl

/-- Witness for C6 (amended) at the unparseable text "abc". -/
theorem claim_C6_normalization_witness :
    to_decimal (some "abc") = .num 0 ∧
    optDecimalField (some "abc") = some (to_decimal (some "abc")) :=
  ⟨claim_C6_normalization.2.1 "abc" rfl,
    claim_C6_normalization.2.2.2.2.2 "abc"⟩

/-- Witness for C1 (amended) on the concrete table without a `0000`
record. -/
theorem claim_C1_no_identification_witness :
    sped_parse contribCfg tNoId = .error .spedParseError :=
  claim_C1_no_identification tNoId (by decide) (by decide)
